import Mathlib

/-!
Verification of the scrobble pipeline of the plex-scrobble repository.

The definitions below are a shallow embedding of the TypeScript source:

* `src/app/lib/letterboxd-scraper.ts` — the `LetterboxdScraper` class
  (`saveCookies`, `loadCookies`, `searchFilm`, `markAsWatched`,
  `loginWithRetry`, `logFilmFromPlex`) and the factory
  `createLetterboxdSession`;
* `src/app/routes/webhook.tsx` — the two `handleMarkAsWatched` transport
  handlers (the legacy handler and the token-route handler).

Browser, network and clock interactions are modelled as explicit oracle
values in an `Env` record; observable calls are recorded in effect traces.
JavaScript `Date` local-time accessors are modelled with an explicit host
UTC-offset parameter; JavaScript string operations are modelled on code
points.
-/

/-- Browser cookie, mirroring the `Cookie` interface of the scraper module. -/
structure Cookie where
  name : String
  value : String
  domain : String
  path : String
  expires : Option Int := none
  httpOnly : Option Bool := none
  secure : Option Bool := none
  sameSite : Option String := none
deriving Repr, DecidableEq

/-- Search result record, mirroring the `LetterboxdFilm` interface of `src/types.ts`. -/
structure LetterboxdFilm where
  title : String
  url : String
  slug : String
  uid : String
deriving Repr, DecidableEq

/-- Options for a diary entry, mirroring `LetterboxdWatchOptions` of `src/types.ts`. -/
structure LetterboxdWatchOptions where
  watchedDate : Option String := none
  rating : Option Nat := none
  review : Option String := none
  tags : Option String := none
deriving Repr, DecidableEq

/-- Per-event-type switches of `WebhookSettings` in `src/app/lib/schema.ts`. -/
structure WebhookEventSettings where
  scrobble : Bool
  rate : Bool
deriving Repr, DecidableEq

/-- User webhook configuration, mirroring `WebhookSettings` in `src/app/lib/schema.ts`. -/
structure WebhookSettings where
  enabled : Bool
  events : WebhookEventSettings
  onlyMovies : Bool
deriving Repr, DecidableEq

/-- The metadata fields of a Plex webhook event used by the pipeline
(`PlexWebhookEvent.Metadata` in `src/types.ts`). -/
structure PlexMetadata where
  librarySectionType : String
  title : String
  year : Option Nat := none
  lastViewedAt : Option Int := none
  userRating : Option Nat := none
deriving Repr, DecidableEq

/-- The fields of a Plex webhook event used by the pipeline
(`PlexWebhookEvent` in `src/types.ts`). -/
structure PlexWebhookEvent where
  event : String
  Metadata : PlexMetadata
  rating : Option Nat := none
deriving Repr, DecidableEq

/-- Machine-readable failure reasons of `ScrobbleResult` in `src/types.ts`. -/
inductive FailReason where
  | webhooks_disabled
  | non_movie
  | event_disabled
  | film_not_found
  | login_failed
  | mark_failed
  | unknown_error
deriving Repr, DecidableEq

/-- Terminal value of the pipeline, mirroring `ScrobbleResult` in `src/types.ts`.
The `error` field of the source carries an `Error` object; the model keeps its
message string. -/
structure ScrobbleResult where
  success : Bool
  reason : Option FailReason := none
  message : String
  errorMsg : Option String := none
deriving Repr, DecidableEq

/-- Mutable state of a `LetterboxdScraper` instance: the `isLoggedIn`,
`csrfToken` and `cookies` private fields, plus whether `page` is non-null. -/
structure ScraperState where
  isLoggedIn : Bool
  csrfToken : Option String
  cookies : List Cookie
  hasPage : Bool
deriving Repr, DecidableEq

/-- HTTP response as observed by `markAsWatched` via `fetch`. -/
structure HttpResponse where
  status : Nat
deriving Repr, DecidableEq

/-- The `ok` accessor of a fetch `Response`: status in the inclusive range 200 to 299. -/
def respOk (r : HttpResponse) : Bool :=
  decide (200 ≤ r.status) && decide (r.status ≤ 299)

/-- Observable outcome of a call to `markAsWatched`: a thrown error or a
returned boolean. -/
inductive MarkOutcome where
  | threw (msg : String)
  | returned (b : Bool)
deriving Repr, DecidableEq

/-- Which check of the settings-gating section of `logFilmFromPlex`
(lines 660 to 709 of the scraper) fired, or acceptance. -/
inductive GateCheck where
  | webhooksDisabled
  | onlyMoviesReject
  | scrobbleDisabled
  | rateDisabled
  | notMovie
  | accepted
deriving Repr, DecidableEq

/-- Observable actions of `loginWithRetry` and `createLetterboxdSession`:
login attempts (1-indexed), backoff waits (in seconds), browser close and
browser (re)initialization. -/
inductive RetryAction where
  | attempt (n : Nat)
  | wait (secs : Nat)
  | close
  | init
deriving Repr, DecidableEq

/-- Observable actions of `loadCookies`: restoring cookies into the page,
navigating to the sign-in page, or submitting credentials.  `loadCookies`
only ever performs the first. -/
inductive SessionEff where
  | setCookies
  | navigateSignIn
  | submitCredentials
deriving Repr, DecidableEq

/-- Return value and observable behavior of `loadCookies`. -/
structure LoadResult where
  ok : Bool
  st : ScraperState
  effs : List SessionEff
deriving Repr, DecidableEq

/-- Observable collaborator calls made by `logFilmFromPlex`. -/
inductive PipeEffect where
  | loadCookiesCall
  | searchFilmCall (title : String) (year : Option Nat)
  | markCall (uid : String) (watchedDate : String) (tags : String)
deriving Repr, DecidableEq

/-- Return value, final scraper state and effect trace of `logFilmFromPlex`. -/
structure PipeResult where
  result : ScrobbleResult
  st : ScraperState
  effs : List PipeEffect
deriving Repr, DecidableEq

/-- External-world oracles for one pipeline invocation: the host time zone
offset (minutes east of UTC, as used by the local-time `Date` accessors), the
current time in milliseconds since the Unix epoch, the outcome of the
`searchFilm` resolution, and the network outcome of the diary-save request. -/
structure Env where
  tzOffsetMin : Int
  nowMs : Int
  searchResult : Option LetterboxdFilm
  markNet : Except Unit HttpResponse

/-- Code points of a string, modelling JavaScript string containment checks. -/
def codes (s : String) : List Nat :=
  s.data.map (fun c => c.toNat)

/-- Code points of a string after ASCII lowercasing, modelling the
`toLowerCase` calls of `searchFilm`. -/
def lowerCodes (s : String) : List Nat :=
  s.data.map (fun c =>
    let n := c.toNat
    if 65 ≤ n ∧ n ≤ 90 then n + 32 else n)

/-- Containment of `sub` as a contiguous run of `hay`, modelling
`String.prototype.includes`. -/
def containsSubN (hay sub : List Nat) : Bool :=
  match hay with
  | [] => sub.isEmpty
  | _ :: t => sub.isPrefixOf hay || containsSubN t sub

/-- Two-digit zero padding, modelling `String(n).padStart(2, c)` for the
one- or two-digit month and day numbers. -/
def pad2 (n : Nat) : String :=
  if n < 10 then "0" ++ toString n else toString n

/-- Rendering of a possibly-absent number inside a template literal:
JavaScript prints `undefined` for an absent value. -/
def jsShowOptNat (o : Option Nat) : String :=
  match o with
  | some n => toString n
  | none => "undefined"

/-- Proleptic-Gregorian civil date (year, month, day) from a count of days
since the Unix epoch.  This is the calendar arithmetic underlying the
JavaScript `Date` accessors. -/
def civilFromDays (z0 : Int) : Int × Nat × Nat :=
  let z : Int := z0 + 719468
  let era : Int := Int.fdiv z 146097
  let doe : Nat := (z - era * 146097).toNat
  let yoe : Nat := (doe - doe / 1460 + doe / 36524 - doe / 146096) / 365
  let doy : Nat := doe - (365 * yoe + yoe / 4 - yoe / 100)
  let mp : Nat := (5 * doy + 2) / 153
  let d : Nat := doy - (153 * mp + 2) / 5 + 1
  let m : Nat := if mp < 10 then mp + 3 else mp - 9
  let y : Int := (yoe : Int) + era * 400 + (if m ≤ 2 then 1 else 0)
  (y, m, d)

/-- Local calendar date parts of an instant, modelling
`new Date(ms).getFullYear()`, `getMonth() + 1` and `getDate()` on a host
whose UTC offset is `tzOffsetMin` minutes. -/
def jsLocalYMD (ms tzOffsetMin : Int) : Int × Nat × Nat :=
  civilFromDays (Int.fdiv (Int.fdiv ms 1000 + tzOffsetMin * 60) 86400)

/-- Date formatting used throughout the scraper:
year, dash, zero-padded month, dash, zero-padded day. -/
def formatYMD (p : Int × Nat × Nat) : String :=
  toString p.1 ++ "-" ++ pad2 p.2.1 ++ "-" ++ pad2 p.2.2

/-- Watched-date computation of `logFilmFromPlex` (lines 745 to 754 of the
scraper): the local calendar date of `lastViewedAt * 1000` when the
`if (metadata.lastViewedAt)` guard at line 747 passes — a timestamp of 0 is
falsy in JavaScript, so it falls back, like an absent timestamp, to the
local calendar date of now. -/
def computeWatchedDate (lastViewedAt : Option Int) (env : Env) : String :=
  match lastViewedAt with
  | some ts =>
    if ts = 0 then formatYMD (jsLocalYMD env.nowMs env.tzOffsetMin)
    else formatYMD (jsLocalYMD (ts * 1000) env.tzOffsetMin)
  | none => formatYMD (jsLocalYMD env.nowMs env.tzOffsetMin)

/-- Modelled from the spec: the UTC calendar date of a Unix timestamp in
seconds, formatted YYYY-MM-DD.  Stated for comparison with the date the
code computes; the code itself uses local-time accessors. -/
def utcDateOf (ts : Int) : String :=
  formatYMD (civilFromDays (Int.fdiv ts 86400))

/-- Name of the cookie holding the cross-site token. -/
def csrfCookieName : String := "com.xk72.webparts.csrf"

/-- Lookup of the cross-site token among a cookie list, as done by both
`saveCookies` and `loadCookies`. -/
def findCsrf (cookies : List Cookie) : Option String :=
  (cookies.find? (fun c => c.name == csrfCookieName)).map (fun c => c.value)

/-- The `saveCookies` method: capture the cookies of the page and, when the
named cookie is present, extract the cross-site token.  A missing page
leaves the state unchanged. -/
def saveCookies (st : ScraperState) (pageCookies : List Cookie) : ScraperState :=
  if st.hasPage then
    let st1 := { st with cookies := pageCookies }
    match findCsrf pageCookies with
    | some v => { st1 with csrfToken := some v }
    | none => st1
  else st

/-- The `loadCookies` method: when the stored cookie list is non-empty and a
page exists, restore the cookies into the page, re-extract the cross-site
token when the named cookie is present, mark the session logged in and
return true; otherwise return false and change nothing. -/
def loadCookies (st : ScraperState) : LoadResult :=
  if 0 < st.cookies.length ∧ st.hasPage then
    let st1 :=
      match findCsrf st.cookies with
      | some v => { st with csrfToken := some v }
      | none => st
    ⟨true, { st1 with isLoggedIn := true }, [SessionEff.setCookies]⟩
  else ⟨false, st, []⟩

/-- Year tie-break test of `searchFilm` (lines 567 to 575 of the scraper):
the candidate title contains the search title case-insensitively and also
contains the decimal year string. -/
def yearMatches (f : LetterboxdFilm) (title : String) (y : Nat) : Bool :=
  containsSubN (lowerCodes f.title) (lowerCodes title) &&
    containsSubN (codes f.title) (codes (toString y))

/-- Loop body of the year tie-break of `searchFilm`: scan the candidate list
once and replace the default best match with the first candidate passing the
year test, stopping there. -/
def pickYearMatch : List LetterboxdFilm → String → Nat → LetterboxdFilm → LetterboxdFilm
  | [], _, _, best => best
  | f :: rest, title, y, best =>
    if yearMatches f title y then f else pickYearMatch rest title y best

/-- Selection step of the title search of `searchFilm` (lines 560 to 578 of
the scraper) as a function of the parsed candidate list: none when the list
is empty, else the first element, overridden by the year tie-break only when
the `if (year)` guard at line 567 passes — a year of 0 is falsy in
JavaScript, so it skips the tie-break like an absent year. -/
def searchFilmSelect (films : List LetterboxdFilm) (title : String) (year : Option Nat) :
    Option LetterboxdFilm :=
  match films with
  | [] => none
  | f0 :: _ =>
    match year with
    | none => some f0
    | some y => if y = 0 then some f0 else some (pickYearMatch films title y f0)

/-- The `markAsWatched` method (lines 585 to 655 of the scraper): throw when
not logged in, then throw when no cross-site token is stored; otherwise send
the diary-save request and return whether the response status was in the
success range, converting a network-level failure into false. -/
def markAsWatched (st : ScraperState) (_film : LetterboxdFilm)
    (_options : LetterboxdWatchOptions) (net : Except Unit HttpResponse) : MarkOutcome :=
  if !st.isLoggedIn then
    MarkOutcome.threw "Not logged in to Letterboxd"
  else
    match st.csrfToken with
    | none => MarkOutcome.threw "No CSRF token available"
    | some _ =>
      match net with
      | Except.ok r => MarkOutcome.returned (respOk r)
      | Except.error _ => MarkOutcome.returned false

/-- Event-gating section of `logFilmFromPlex` (lines 660 to 709 of the
scraper): the settings-driven checks run only when a settings object is
supplied, in source order; the non-movie check at line 702 runs
unconditionally. -/
def gateDecide (eventName libType : String) (ws : Option WebhookSettings) : GateCheck :=
  match ws with
  | some s =>
    if !s.enabled then GateCheck.webhooksDisabled
    else if s.onlyMovies && libType != "movie" then GateCheck.onlyMoviesReject
    else if eventName == "media.scrobble" && !s.events.scrobble then GateCheck.scrobbleDisabled
    else if eventName == "media.rate" && !s.events.rate then GateCheck.rateDisabled
    else if libType != "movie" then GateCheck.notMovie
    else GateCheck.accepted
  | none =>
    if libType != "movie" then GateCheck.notMovie else GateCheck.accepted

/-- Loop of `loginWithRetry` (lines 281 to 308 of the scraper), driven by an
oracle giving the outcome of each 1-indexed login attempt (false covers both
a false return and a thrown error of `login`).  The second argument is the
current attempt number, the third the number of attempts still allowed.  On
a failed attempt that is not the last, the loop waits `2 ^ attempt` seconds,
closes the browser and reinitializes it. -/
def loginRetryAux (results : Nat → Bool) : Nat → Nat → Bool × List RetryAction
  | _, 0 => (false, [])
  | attempt, 1 => (results attempt, [RetryAction.attempt attempt])
  | attempt, remaining + 2 =>
    if results attempt then (true, [RetryAction.attempt attempt])
    else
      let r := loginRetryAux results (attempt + 1) (remaining + 1)
      (r.1, RetryAction.attempt attempt :: RetryAction.wait (2 ^ attempt) ::
        RetryAction.close :: RetryAction.init :: r.2)

/-- The `loginWithRetry` method: run the attempt loop starting at attempt 1. -/
def loginWithRetry (results : Nat → Bool) (maxAttempts : Nat) : Bool × List RetryAction :=
  loginRetryAux results 1 maxAttempts

/-- Index of the first successful login attempt within the budget, if any. -/
def firstSuccess (results : Nat → Bool) (maxAttempts : Nat) : Option Nat :=
  (List.range' 1 maxAttempts).find? results

/-- Actions between a failed attempt `n` and the next attempt: the attempt
itself, the backoff wait of `2 ^ n` seconds, the browser close and the
browser reinitialization. -/
def retryBlock (n : Nat) : List RetryAction :=
  [RetryAction.attempt n, RetryAction.wait (2 ^ n), RetryAction.close, RetryAction.init]

/-- State of a scraper right after a successful `login`: logged in, with the
cookies of the page captured by `saveCookies`. -/
def loginSuccessState (st : ScraperState) (pageCookies : List Cookie) : ScraperState :=
  saveCookies { st with isLoggedIn := true } pageCookies

/-- The `createLetterboxdSession` factory (lines 817 to 832 of the scraper):
construct a fresh scraper, initialize the browser, try `loadCookies` (always
false on a fresh instance), then `loginWithRetry` with 3 attempts; on
failure close the browser and throw.  The result is the thrown message or
the scraper, together with the trace of browser actions. -/
def createLetterboxdSession (loginResults : Nat → Bool) (pageCookies : List Cookie) :
    Except String ScraperState × List RetryAction :=
  let st0 : ScraperState := ⟨false, none, [], false⟩
  let st1 : ScraperState := { st0 with hasPage := true }
  let load := loadCookies st1
  if load.ok then (Except.ok load.st, [RetryAction.init])
  else
    let r := loginWithRetry loginResults 3
    if r.1 then (Except.ok (loginSuccessState st1 pageCookies), RetryAction.init :: r.2)
    else
      (Except.error "Failed to login to Letterboxd after multiple attempts",
        RetryAction.init :: r.2 ++ [RetryAction.close])

/-- JavaScript truthiness of `plexEvent.rating || metadata.userRating`
(line 714 of the scraper): a present zero rating is falsy and falls through. -/
def jsOrRating (a b : Option Nat) : Option Nat :=
  match a with
  | some n => if n = 0 then b else some n
  | none => b

/-- Session-ensuring section of `logFilmFromPlex` (lines 718 to 729 of the
scraper): when not logged in, run `loadCookies` and observe the resulting
state. -/
def ensureLoggedIn (st : ScraperState) : ScraperState × List PipeEffect :=
  if st.isLoggedIn then (st, [])
  else ((loadCookies st).st, [PipeEffect.loadCookiesCall])

/-- Post-gate body of `logFilmFromPlex` (lines 711 to 783 of the scraper):
ensure a session via `loadCookies` when not logged in, resolve the film,
compute the watched date and send the diary entry, reducing every outcome to
a `ScrobbleResult` value. -/
def pipelineCore (ev : PlexWebhookEvent) (st : ScraperState) (env : Env) : PipeResult :=
  let title := ev.Metadata.title
  let year := ev.Metadata.year
  let userRating := jsOrRating ev.rating ev.Metadata.userRating
  let afterLoad := ensureLoggedIn st
  if !afterLoad.1.isLoggedIn then
    ⟨⟨false, some FailReason.login_failed,
      "Not logged in to Letterboxd. Please log in first.", some "Login failed"⟩,
      afterLoad.1, afterLoad.2⟩
  else
    let effs2 := afterLoad.2 ++ [PipeEffect.searchFilmCall title year]
    match env.searchResult with
    | none =>
      ⟨⟨false, some FailReason.film_not_found,
        "Could not find film: " ++ title ++ " (" ++ jsShowOptNat year ++ ") on Letterboxd",
        some ("Film not found: " ++ title)⟩, afterLoad.1, effs2⟩
    | some film =>
      let watchedDate := computeWatchedDate ev.Metadata.lastViewedAt env
      let effs3 := effs2 ++ [PipeEffect.markCall film.uid watchedDate "plex"]
      match markAsWatched afterLoad.1 film
          ⟨some watchedDate, userRating, none, some "plex"⟩ env.markNet with
      | MarkOutcome.threw m =>
        ⟨⟨false, some FailReason.unknown_error,
          "Unexpected error processing " ++ title, some m⟩, afterLoad.1, effs3⟩
      | MarkOutcome.returned true =>
        ⟨⟨true, none, "Successfully logged " ++ title ++ " to Letterboxd", none⟩,
          afterLoad.1, effs3⟩
      | MarkOutcome.returned false =>
        ⟨⟨false, some FailReason.mark_failed,
          "Failed to mark " ++ title ++ " as watched on Letterboxd",
          some "Mark as watched failed"⟩, afterLoad.1, effs3⟩

/-- The `logFilmFromPlex` method (lines 657 to 783 of the scraper): run the
gating checks in source order, returning the corresponding skip result for
the check that fired, else run the post-gate body. -/
def logFilmFromPlex (ev : PlexWebhookEvent) (ws : Option WebhookSettings)
    (st : ScraperState) (env : Env) : PipeResult :=
  match gateDecide ev.event ev.Metadata.librarySectionType ws with
  | GateCheck.webhooksDisabled =>
    ⟨⟨false, some FailReason.webhooks_disabled, "Webhooks are disabled in settings", none⟩,
      st, []⟩
  | GateCheck.onlyMoviesReject =>
    ⟨⟨false, some FailReason.non_movie,
      "Movies-only filter enabled, skipping non-movie content", none⟩, st, []⟩
  | GateCheck.scrobbleDisabled =>
    ⟨⟨false, some FailReason.event_disabled, "Scrobble events are disabled in settings", none⟩,
      st, []⟩
  | GateCheck.rateDisabled =>
    ⟨⟨false, some FailReason.event_disabled, "Rate events are disabled in settings", none⟩,
      st, []⟩
  | GateCheck.notMovie =>
    ⟨⟨false, some FailReason.non_movie, "Content is not a movie, skipping", none⟩, st, []⟩
  | GateCheck.accepted => pipelineCore ev st env

/-- Truthiness of the `success` binding in the legacy `handleMarkAsWatched`
of `src/app/routes/webhook.tsx`: the binding holds the whole
`ScrobbleResult` object returned by `logFilmFromPlex`, and an object is
always truthy in JavaScript. -/
def scrobbleResultIsTruthy (_r : ScrobbleResult) : Bool := true

/-- The legacy `handleMarkAsWatched` transport handler (first part of
`src/app/routes/webhook.tsx`): branch on the truthiness of the result object
and produce an HTTP status with a message. -/
def handleMarkAsWatchedLegacy (r : ScrobbleResult) : Nat × String :=
  if scrobbleResultIsTruthy r then (200, "Successfully logged to Letterboxd")
  else (400, "Failed to log to Letterboxd")

/-- Reasons the token-route handlers treat as actual errors. -/
def actualErrorReasons : List FailReason :=
  [FailReason.login_failed, FailReason.mark_failed, FailReason.unknown_error,
    FailReason.film_not_found]

/-- The token-route `handleMarkAsWatched` transport handler (second part of
`src/app/routes/webhook.tsx`, lines 337 to 361): 200 on success, 400 when
the failure reason is an actual error, and 200 for filtering skips. -/
def handleMarkAsWatchedToken (r : ScrobbleResult) : Nat :=
  if r.success then 200
  else
    let isActualError :=
      match r.reason with
      | some reason => actualErrorReasons.contains reason
      | none => false
    if isActualError then 400 else 200

/-! ## Helper lemmas -/

/-- The tie-break loop of `searchFilm` returns the first candidate passing
the year test, or the supplied default when none passes. -/
theorem pickYearMatch_eq_find (l : List LetterboxdFilm) (title : String) (y : Nat)
    (b : LetterboxdFilm) :
    pickYearMatch l title y b = ((l.find? (fun f => yearMatches f title y)).getD b) := by
  induction l with
  | nil => rfl
  | cons f rest ih =>
    cases h : yearMatches f title y with
    | true => simp [pickYearMatch, List.find?_cons, h]
    | false => simp [pickYearMatch, List.find?_cons, h, ih]

/-- On an accepted event, the pipeline runs the post-gate body. -/
theorem logFilmFromPlex_accepted (ev : PlexWebhookEvent) (ws : Option WebhookSettings)
    (st : ScraperState) (env : Env)
    (hg : gateDecide ev.event ev.Metadata.librarySectionType ws = GateCheck.accepted) :
    logFilmFromPlex ev ws st env = pipelineCore ev st env := by
  simp [logFilmFromPlex, hg]

/-- The post-gate body only ever produces the reasons of its own stage. -/
theorem pipelineCore_reason (ev : PlexWebhookEvent) (st : ScraperState) (env : Env) :
    (pipelineCore ev st env).result.reason = some FailReason.login_failed ∨
    (pipelineCore ev st env).result.reason = some FailReason.film_not_found ∨
    (pipelineCore ev st env).result.reason = none ∨
    (pipelineCore ev st env).result.reason = some FailReason.mark_failed ∨
    (pipelineCore ev st env).result.reason = some FailReason.unknown_error := by
  unfold pipelineCore
  cases hL : (ensureLoggedIn st).1.isLoggedIn
  · simp [hL]
  · simp only [hL, Bool.not_true, Bool.false_eq_true, if_false]
    split
    · simp
    · split <;> simp

/-- On an accepted event, the pipeline result reason is never one of the
gate rejection reasons. -/
theorem accepted_reasons (ev : PlexWebhookEvent) (ws : Option WebhookSettings)
    (st : ScraperState) (env : Env)
    (hg : gateDecide ev.event ev.Metadata.librarySectionType ws = GateCheck.accepted) :
    (logFilmFromPlex ev ws st env).result.reason = none ∨
    (logFilmFromPlex ev ws st env).result.reason = some FailReason.login_failed ∨
    (logFilmFromPlex ev ws st env).result.reason = some FailReason.film_not_found ∨
    (logFilmFromPlex ev ws st env).result.reason = some FailReason.mark_failed ∨
    (logFilmFromPlex ev ws st env).result.reason = some FailReason.unknown_error := by
  rw [logFilmFromPlex_accepted ev ws st env hg]
  have h := pipelineCore_reason ev st env
  tauto

/-! ## Claims -/

/-- Counterexample for C2: at the given year 0, the second candidate title
Dune 2000 contains the search title case-insensitively and contains the
decimal year string 0, yet the source keeps the first candidate, because
the `if (year)` guard at line 567 treats the falsy year 0 as absent and
skips the tie-break — so the claimed override does not happen for every
given year. -/
theorem yearZero_tiebreak_counterexample :
    yearMatches ⟨"Dune 2000", "https://letterboxd.com/film/dune-2000/", "/film/dune-2000/",
      "film:2"⟩ "dune" 0 = true ∧
    searchFilmSelect
      [⟨"Dune", "https://letterboxd.com/film/dune/", "/film/dune/", "film:1"⟩,
       ⟨"Dune 2000", "https://letterboxd.com/film/dune-2000/", "/film/dune-2000/", "film:2"⟩]
      "dune" (some 0) =
      some ⟨"Dune", "https://letterboxd.com/film/dune/", "/film/dune/", "film:1"⟩ := by
  exact ⟨by decide, by decide⟩

/-- Claim C2 (amended): the title-search selection is a deterministic
function of the parsed candidate list, the search title and the optional
year.  When a nonzero year is given, the first candidate whose title
case-insensitively contains the search title and contains the decimal year
string is selected, overriding the positional default; otherwise — no
candidate matches, the year is absent, or the year is 0 and therefore falsy
in JavaScript — the first element is selected.  Two runs on identical
inputs agree because the selection is a pure function. -/
theorem searchFilm_title_selection (films : List LetterboxdFilm) (title : String) (y : Nat)
    (f0 : LetterboxdFilm) (hHead : films.head? = some f0) :
    (y ≠ 0 → ∀ f, films.find? (fun g => yearMatches g title y) = some f →
      searchFilmSelect films title (some y) = some f) ∧
    (y ≠ 0 → films.find? (fun g => yearMatches g title y) = none →
      searchFilmSelect films title (some y) = some f0) ∧
    searchFilmSelect films title (some 0) = some f0 ∧
    searchFilmSelect films title none = some f0 ∧
    (∀ yr : Option Nat, searchFilmSelect films title yr = searchFilmSelect films title yr) := by
  cases films with
  | nil => simp at hHead
  | cons g rest =>
    have hg0 : g = f0 := by simpa using hHead
    subst hg0
    refine ⟨?_, ?_, rfl, rfl, fun _ => rfl⟩
    · intro hy f hf
      simp [searchFilmSelect, hy, pickYearMatch_eq_find, hf]
    · intro hy hf
      simp [searchFilmSelect, hy, pickYearMatch_eq_find, hf]

/-- Witness for C2: with candidates Dune and Dune 2021 and search title
dune with the nonzero year 2021, the second candidate is selected over the
first. -/
theorem searchFilm_title_selection_witness :
    searchFilmSelect
      [⟨"Dune", "https://letterboxd.com/film/dune/", "/film/dune/", "film:1"⟩,
       ⟨"Dune 2021", "https://letterboxd.com/film/dune-2021/", "/film/dune-2021/", "film:2"⟩]
      "dune" (some 2021) =
      some ⟨"Dune 2021", "https://letterboxd.com/film/dune-2021/", "/film/dune-2021/",
        "film:2"⟩ := by
  have h := searchFilm_title_selection
    [⟨"Dune", "https://letterboxd.com/film/dune/", "/film/dune/", "film:1"⟩,
     ⟨"Dune 2021", "https://letterboxd.com/film/dune-2021/", "/film/dune-2021/", "film:2"⟩]
    "dune" 2021
    ⟨"Dune", "https://letterboxd.com/film/dune/", "/film/dune/", "film:1"⟩ rfl
  exact h.1 (by decide) _ (by decide)

/-- Claim C8: after a cookie capture that stored a non-empty cookie list,
a cookie load on the same instance returns true, marks the session logged
in, re-extracts the cross-site token from the named cookie when present,
and performs only a cookie restore (no sign-in navigation, no credential
submission); a cookie load on an empty cookie list returns false and leaves
the state unchanged. -/
theorem cookie_roundtrip (st : ScraperState) (pageCookies : List Cookie)
    (hPage : st.hasPage = true) (hNe : pageCookies ≠ []) :
    ((loadCookies (saveCookies st pageCookies)).ok = true ∧
     (loadCookies (saveCookies st pageCookies)).st.isLoggedIn = true ∧
     (∀ v, findCsrf pageCookies = some v →
       (loadCookies (saveCookies st pageCookies)).st.csrfToken = some v) ∧
     (loadCookies (saveCookies st pageCookies)).effs = [SessionEff.setCookies]) ∧
    (∀ st2 : ScraperState, st2.cookies = [] → loadCookies st2 = ⟨false, st2, []⟩) := by
  constructor
  · have hlen : 0 < pageCookies.length := List.length_pos.mpr hNe
    cases hF : findCsrf pageCookies with
    | none => simp [saveCookies, loadCookies, hPage, hF, hlen]
    | some v => simp [saveCookies, loadCookies, hPage, hF, hlen]
  · intro st2 h2
    simp [loadCookies, h2]

/-- Witness for C8: saving one csrf cookie and loading it back yields a
logged-in state holding the token. -/
theorem cookie_roundtrip_witness :
    (loadCookies (saveCookies ⟨false, none, [], true⟩
      [⟨"com.xk72.webparts.csrf", "tok", "letterboxd.com", "/", none, none, none, none⟩])).ok
      = true ∧
    (loadCookies (saveCookies ⟨false, none, [], true⟩
      [⟨"com.xk72.webparts.csrf", "tok", "letterboxd.com", "/", none, none, none,
        none⟩])).st.csrfToken = some "tok" := by
  have h := cookie_roundtrip ⟨false, none, [], true⟩
    [⟨"com.xk72.webparts.csrf", "tok", "letterboxd.com", "/", none, none, none, none⟩]
    rfl (by simp)
  exact ⟨h.1.1, h.1.2.2.1 "tok" (by decide)⟩

/-- Claim C9: on the legacy handler the failure branch is unreachable
because the result object is always truthy, so an actionable failure such
as film_not_found is reported with HTTP 200 and a success message; the
token-route handler reports 400 for the four actionable reasons, 200 for
the three benign skip reasons and 200 on success, as the spec describes. -/
theorem webhook_status_mapping (msg : String) (err : Option String) :
    handleMarkAsWatchedLegacy ⟨false, some FailReason.film_not_found, msg, err⟩ =
      (200, "Successfully logged to Letterboxd") ∧
    handleMarkAsWatchedToken ⟨false, some FailReason.film_not_found, msg, err⟩ = 400 ∧
    handleMarkAsWatchedToken ⟨false, some FailReason.login_failed, msg, err⟩ = 400 ∧
    handleMarkAsWatchedToken ⟨false, some FailReason.mark_failed, msg, err⟩ = 400 ∧
    handleMarkAsWatchedToken ⟨false, some FailReason.unknown_error, msg, err⟩ = 400 ∧
    handleMarkAsWatchedToken ⟨false, some FailReason.webhooks_disabled, msg, err⟩ = 200 ∧
    handleMarkAsWatchedToken ⟨false, some FailReason.non_movie, msg, err⟩ = 200 ∧
    handleMarkAsWatchedToken ⟨false, some FailReason.event_disabled, msg, err⟩ = 200 ∧
    (∀ r : Option FailReason, handleMarkAsWatchedToken ⟨true, r, msg, err⟩ = 200) := by
  refine ⟨rfl, rfl, rfl, rfl, rfl, rfl, rfl, rfl, fun r => rfl⟩

/-- The session-ensuring step records at most a cookie-load call. -/
theorem ensureLoggedIn_effs (st : ScraperState) :
    (ensureLoggedIn st).2 = [] ∨ (ensureLoggedIn st).2 = [PipeEffect.loadCookiesCall] := by
  by_cases h : st.isLoggedIn <;> simp [ensureLoggedIn, h]

/-- Claim C10: when no webhook-settings object is supplied, the
configuration-driven checks are skipped entirely: the gate rejects exactly
the non-movie events with reason non_movie, and the pipeline can never
produce the reasons webhooks_disabled or event_disabled. -/
theorem undefined_settings_gate (ev : PlexWebhookEvent) (st : ScraperState) (env : Env) :
    (gateDecide ev.event ev.Metadata.librarySectionType none = GateCheck.notMovie ↔
      ev.Metadata.librarySectionType ≠ "movie") ∧
    (gateDecide ev.event ev.Metadata.librarySectionType none = GateCheck.accepted ↔
      ev.Metadata.librarySectionType = "movie") ∧
    (logFilmFromPlex ev none st env).result.reason ≠ some FailReason.webhooks_disabled ∧
    (logFilmFromPlex ev none st env).result.reason ≠ some FailReason.event_disabled ∧
    ((logFilmFromPlex ev none st env).result.reason = some FailReason.non_movie ↔
      ev.Metadata.librarySectionType ≠ "movie") := by
  by_cases hM : ev.Metadata.librarySectionType = "movie"
  · have hg : gateDecide ev.event ev.Metadata.librarySectionType none = GateCheck.accepted := by
      simp [gateDecide, hM]
    have hr := accepted_reasons ev none st env hg
    refine ⟨by rw [hg]; simp [hM], by rw [hg]; simp [hM], ?_, ?_, ?_⟩
    · rcases hr with h | h | h | h | h <;> simp [h]
    · rcases hr with h | h | h | h | h <;> simp [h]
    · rcases hr with h | h | h | h | h <;> simp [h, hM]
  · have hg : gateDecide ev.event ev.Metadata.librarySectionType none = GateCheck.notMovie := by
      simp [gateDecide, hM]
    have hres : (logFilmFromPlex ev none st env).result =
        ⟨false, some FailReason.non_movie, "Content is not a movie, skipping", none⟩ := by
      simp [logFilmFromPlex, hg]
    refine ⟨by rw [hg]; simp [hM], by rw [hg]; simp [hM], ?_, ?_, ?_⟩
    · simp [hres]
    · simp [hres]
    · simp [hres, hM]

/-- Claim C1: with a settings object supplied, the gating decision applies
its checks in the fixed source order with short-circuit, first failing check
winning: disabled webhooks, movies-only filter, scrobble events disabled,
rate events disabled, unconditional non-movie; each rejection produces the
corresponding result reason and message, and an accepted event continues
into the post-gate stages, which never produce a gate rejection reason. -/
theorem gate_check_order (ev : PlexWebhookEvent) (s : WebhookSettings)
    (st : ScraperState) (env : Env) :
    (gateDecide ev.event ev.Metadata.librarySectionType (some s) =
      (if s.enabled = false then GateCheck.webhooksDisabled
       else if s.onlyMovies = true ∧ ev.Metadata.librarySectionType ≠ "movie" then
         GateCheck.onlyMoviesReject
       else if ev.event = "media.scrobble" ∧ s.events.scrobble = false then
         GateCheck.scrobbleDisabled
       else if ev.event = "media.rate" ∧ s.events.rate = false then GateCheck.rateDisabled
       else if ev.Metadata.librarySectionType ≠ "movie" then GateCheck.notMovie
       else GateCheck.accepted)) ∧
    (gateDecide ev.event ev.Metadata.librarySectionType (some s) = GateCheck.webhooksDisabled →
      (logFilmFromPlex ev (some s) st env).result =
        ⟨false, some FailReason.webhooks_disabled, "Webhooks are disabled in settings", none⟩) ∧
    (gateDecide ev.event ev.Metadata.librarySectionType (some s) = GateCheck.onlyMoviesReject →
      (logFilmFromPlex ev (some s) st env).result =
        ⟨false, some FailReason.non_movie,
          "Movies-only filter enabled, skipping non-movie content", none⟩) ∧
    (gateDecide ev.event ev.Metadata.librarySectionType (some s) = GateCheck.scrobbleDisabled →
      (logFilmFromPlex ev (some s) st env).result =
        ⟨false, some FailReason.event_disabled,
          "Scrobble events are disabled in settings", none⟩) ∧
    (gateDecide ev.event ev.Metadata.librarySectionType (some s) = GateCheck.rateDisabled →
      (logFilmFromPlex ev (some s) st env).result =
        ⟨false, some FailReason.event_disabled, "Rate events are disabled in settings", none⟩) ∧
    (gateDecide ev.event ev.Metadata.librarySectionType (some s) = GateCheck.notMovie →
      (logFilmFromPlex ev (some s) st env).result =
        ⟨false, some FailReason.non_movie, "Content is not a movie, skipping", none⟩) ∧
    (gateDecide ev.event ev.Metadata.librarySectionType (some s) = GateCheck.accepted →
      (logFilmFromPlex ev (some s) st env).result.reason ≠ some FailReason.webhooks_disabled ∧
      (logFilmFromPlex ev (some s) st env).result.reason ≠ some FailReason.event_disabled ∧
      (logFilmFromPlex ev (some s) st env).result.reason ≠ some FailReason.non_movie) := by
  refine ⟨?_, ?_, ?_, ?_, ?_, ?_, ?_⟩
  · by_cases h1 : s.enabled = true <;> by_cases h2 : s.onlyMovies = true <;>
      by_cases h3 : ev.Metadata.librarySectionType = "movie" <;>
      by_cases h4 : ev.event = "media.scrobble" <;>
      by_cases h5 : ev.event = "media.rate" <;>
      by_cases h6 : s.events.scrobble = true <;> by_cases h7 : s.events.rate = true <;>
      simp [gateDecide, h1, h2, h3, h4, h5, h6, h7]
  · intro h
    simp [logFilmFromPlex, h]
  · intro h
    simp [logFilmFromPlex, h]
  · intro h
    simp [logFilmFromPlex, h]
  · intro h
    simp [logFilmFromPlex, h]
  · intro h
    simp [logFilmFromPlex, h]
  · intro h
    have hr := accepted_reasons ev (some s) st env h
    rcases hr with h' | h' | h' | h' | h' <;> simp [h']

/-- Witness for C1: disabled webhooks produce the webhooks_disabled
rejection, while an accepted movie scrobble never reports a gate reason. -/
theorem gate_check_order_witness :
    (logFilmFromPlex ⟨"media.scrobble", ⟨"movie", "Heat", none, none, none⟩, none⟩
        (some ⟨false, ⟨true, true⟩, true⟩) ⟨false, none, [], false⟩
        ⟨0, 0, none, Except.error ()⟩).result =
      ⟨false, some FailReason.webhooks_disabled, "Webhooks are disabled in settings", none⟩ ∧
    (logFilmFromPlex ⟨"media.scrobble", ⟨"movie", "Heat", none, none, none⟩, none⟩
        (some ⟨true, ⟨true, true⟩, true⟩) ⟨false, none, [], false⟩
        ⟨0, 0, none, Except.error ()⟩).result.reason ≠ some FailReason.non_movie := by
  constructor
  · exact (gate_check_order _ _ _ _).2.1 (by decide)
  · exact ((gate_check_order _ _ _ _).2.2.2.2.2.2 (by decide)).2.2

/-- Claim C5: on an accepted event whose resolution returns null, the
pipeline returns the film_not_found failure value and never invokes
markAsWatched; resolution itself returns null as a value in the
no-candidate case. -/
theorem resolve_null_film_not_found (ev : PlexWebhookEvent) (ws : Option WebhookSettings)
    (st : ScraperState) (env : Env)
    (hGate : gateDecide ev.event ev.Metadata.librarySectionType ws = GateCheck.accepted)
    (hSession : st.isLoggedIn = true ∨ (st.cookies ≠ [] ∧ st.hasPage = true))
    (hSearch : env.searchResult = none) :
    (logFilmFromPlex ev ws st env).result =
      ⟨false, some FailReason.film_not_found,
        "Could not find film: " ++ ev.Metadata.title ++ " (" ++
          jsShowOptNat ev.Metadata.year ++ ") on Letterboxd",
        some ("Film not found: " ++ ev.Metadata.title)⟩ ∧
    (∀ uid wd tg, PipeEffect.markCall uid wd tg ∉ (logFilmFromPlex ev ws st env).effs) ∧
    (∀ (t : String) (yr : Option Nat), searchFilmSelect [] t yr = none) := by
  have hL : (ensureLoggedIn st).1.isLoggedIn = true := by
    rcases hSession with h | ⟨h1, h2⟩
    · simp [ensureLoggedIn, h]
    · have hlen : 0 < st.cookies.length := List.length_pos.mpr h1
      by_cases h : st.isLoggedIn = true
      · simp [ensureLoggedIn, h]
      · simp [ensureLoggedIn, h, loadCookies, hlen, h2]
  rw [logFilmFromPlex_accepted ev ws st env hGate]
  refine ⟨?_, ?_, fun t yr => rfl⟩
  · simp [pipelineCore, hL, hSearch]
  · intro uid wd tg
    rcases ensureLoggedIn_effs st with he | he <;> simp [pipelineCore, hL, hSearch, he]

/-- Witness for C5: a movie scrobble with no settings, a logged-in session
and an empty resolution yields the film_not_found failure. -/
theorem resolve_null_film_not_found_witness :
    (logFilmFromPlex ⟨"media.scrobble", ⟨"movie", "Nonexistent Film 9999", none, none, none⟩,
        none⟩ none ⟨true, some "tok", [], true⟩ ⟨0, 0, none, Except.error ()⟩).result =
      ⟨false, some FailReason.film_not_found,
        "Could not find film: Nonexistent Film 9999 (undefined) on Letterboxd",
        some "Film not found: Nonexistent Film 9999"⟩ := by
  have h := resolve_null_film_not_found
    ⟨"media.scrobble", ⟨"movie", "Nonexistent Film 9999", none, none, none⟩, none⟩
    none ⟨true, some "tok", [], true⟩ ⟨0, 0, none, Except.error ()⟩
    (by decide) (Or.inl rfl) rfl
  exact h.1

/-- Any markCall recorded by the post-gate body carries exactly the
watched date computed from the last-viewed timestamp of the event. -/
theorem pipelineCore_markCall_watchedDate (ev : PlexWebhookEvent) (st : ScraperState)
    (env : Env) (uid wd tg : String)
    (hmem : PipeEffect.markCall uid wd tg ∈ (pipelineCore ev st env).effs) :
    wd = computeWatchedDate ev.Metadata.lastViewedAt env := by
  unfold pipelineCore at hmem
  rcases ensureLoggedIn_effs st with he | he
  · cases hL : (ensureLoggedIn st).1.isLoggedIn <;> simp [hL, he] at hmem
    cases hS : env.searchResult
    · simp [hS] at hmem
    · simp [hS] at hmem
      split at hmem <;> simp at hmem <;> exact hmem.2.1
  · cases hL : (ensureLoggedIn st).1.isLoggedIn <;> simp [hL, he] at hmem
    cases hS : env.searchResult
    · simp [hS] at hmem
    · simp [hS] at hmem
      split at hmem <;> simp at hmem <;> exact hmem.2.1

/-- Counterexample for C6: the code computes the watched date with
local-time accessors, so for lastViewedAt 1700000000 a host at UTC+3
produces 2023-11-15 while the UTC calendar date of that instant is
2023-11-14; the computed date is not independent of the host time zone and
does not always equal the UTC date. -/
theorem watchedDate_not_utc_counterexample :
    computeWatchedDate (some 1700000000) ⟨180, 0, none, Except.error ()⟩ = "2023-11-15" ∧
    computeWatchedDate (some 1700000000) ⟨0, 0, none, Except.error ()⟩ = "2023-11-14" ∧
    utcDateOf 1700000000 = "2023-11-14" ∧
    computeWatchedDate (some 1700000000) ⟨180, 0, none, Except.error ()⟩ ≠
      utcDateOf 1700000000 := by
  refine ⟨by decide, by decide, by decide, by decide⟩

/-- Claim C6 (amended): for an event carrying a nonzero last-viewed Unix
timestamp (a timestamp of 0 is falsy in JavaScript and falls back to the
current date) the computed watchedDate is the calendar date of that instant
in the host local time zone formatted YYYY-MM-DD, which coincides with the
UTC calendar date exactly on hosts whose UTC offset is zero; the date
handed to the write step is always this computed date. -/
theorem watchedDate_local_semantics (ts : Int) (env : Env) (h : env.tzOffsetMin = 0)
    (hts : ts ≠ 0) :
    computeWatchedDate (some ts) env = utcDateOf ts ∧
    (∀ (ev : PlexWebhookEvent) (ws : Option WebhookSettings) (st : ScraperState)
      (uid wd tg : String),
      PipeEffect.markCall uid wd tg ∈ (logFilmFromPlex ev ws st env).effs →
      wd = computeWatchedDate ev.Metadata.lastViewedAt env) := by
  constructor
  · have hdiv : Int.fdiv (ts * 1000) 1000 = ts := Int.mul_fdiv_cancel ts (by norm_num)
    simp [computeWatchedDate, jsLocalYMD, utcDateOf, h, hdiv, hts]
  · intro ev ws st uid wd tg hmem
    have hcore : PipeEffect.markCall uid wd tg ∈ (pipelineCore ev st env).effs := by
      by_cases hg : gateDecide ev.event ev.Metadata.librarySectionType ws = GateCheck.accepted
      · rwa [logFilmFromPlex_accepted ev ws st env hg] at hmem
      · exfalso
        revert hmem
        unfold logFilmFromPlex
        cases hd : gateDecide ev.event ev.Metadata.librarySectionType ws <;> simp
        exact absurd hd hg
    exact pipelineCore_markCall_watchedDate ev st env uid wd tg hcore

/-- Witness for C6 (amended): on a zero-offset host the computed date for
lastViewedAt 1700000000 equals the UTC calendar date 2023-11-14. -/
theorem watchedDate_local_semantics_witness :
    computeWatchedDate (some 1700000000) ⟨0, 0, none, Except.error ()⟩ =
      utcDateOf 1700000000 := by
  exact (watchedDate_local_semantics 1700000000 ⟨0, 0, none, Except.error ()⟩ rfl
    (by decide)).1

/-- When some attempt in the window succeeds, the retry loop stops at the
first successful attempt, having run the backoff block after each earlier
failed attempt. -/
theorem loginRetryAux_find_some (results : Nat → Bool) :
    ∀ (remaining attempt k : Nat),
      (List.range' attempt remaining).find? results = some k →
      loginRetryAux results attempt remaining =
        (true, ((List.range' attempt (k - attempt)).map retryBlock).flatten ++
          [RetryAction.attempt k])
  | 0, attempt, k => by
    intro hf
    simp [List.range'] at hf
  | 1, attempt, k => by
    intro hf
    rw [List.range'_one] at hf
    cases hr : results attempt
    · rw [List.find?_singleton, hr] at hf
      simp at hf
    · rw [List.find?_singleton, hr] at hf
      simp at hf
      subst hf
      simp [loginRetryAux, hr, Nat.sub_self, List.range']
  | r + 2, attempt, k => by
    intro hf
    rw [List.range'_succ] at hf
    cases hr : results attempt
    · rw [List.find?_cons, hr] at hf
      have ih := loginRetryAux_find_some results (r + 1) (attempt + 1) k hf
      have hk : attempt + 1 ≤ k := by
        have hm := List.mem_of_find?_eq_some hf
        exact (List.mem_range'_1.mp hm).1
      have harith : k - attempt = (k - (attempt + 1)) + 1 := by omega
      rw [show loginRetryAux results attempt (r + 2) =
          (if results attempt then (true, [RetryAction.attempt attempt])
           else
             ((loginRetryAux results (attempt + 1) (r + 1)).1,
              RetryAction.attempt attempt :: RetryAction.wait (2 ^ attempt) ::
                RetryAction.close :: RetryAction.init ::
                (loginRetryAux results (attempt + 1) (r + 1)).2)) from rfl, hr, harith,
        List.range'_succ]
      simp [ih, retryBlock]
    · rw [List.find?_cons, hr] at hf
      simp at hf
      subst hf
      rw [show loginRetryAux results attempt (r + 2) =
          (if results attempt then (true, [RetryAction.attempt attempt])
           else
             ((loginRetryAux results (attempt + 1) (r + 1)).1,
              RetryAction.attempt attempt :: RetryAction.wait (2 ^ attempt) ::
                RetryAction.close :: RetryAction.init ::
                (loginRetryAux results (attempt + 1) (r + 1)).2)) from rfl, hr]
      simp [Nat.sub_self, List.range']

/-- When no attempt in the window succeeds, the retry loop runs the backoff
block after every attempt but the last and returns false. -/
theorem loginRetryAux_find_none (results : Nat → Bool) :
    ∀ (remaining attempt : Nat), 1 ≤ remaining →
      (List.range' attempt remaining).find? results = none →
      loginRetryAux results attempt remaining =
        (false, ((List.range' attempt (remaining - 1)).map retryBlock).flatten ++
          [RetryAction.attempt (attempt + remaining - 1)])
  | 0, attempt => by
    intro h
    omega
  | 1, attempt => by
    intro _ hf
    rw [List.range'_one] at hf
    rw [List.find?_singleton] at hf
    cases hr : results attempt
    · simp [loginRetryAux, hr, List.range']
    · rw [hr] at hf
      simp at hf
  | r + 2, attempt => by
    intro _ hf
    rw [List.range'_succ] at hf
    cases hr : results attempt
    · rw [List.find?_cons, hr] at hf
      have ih := loginRetryAux_find_none results (r + 1) (attempt + 1) (by omega) hf
      rw [show loginRetryAux results attempt (r + 2) =
          (if results attempt then (true, [RetryAction.attempt attempt])
           else
             ((loginRetryAux results (attempt + 1) (r + 1)).1,
              RetryAction.attempt attempt :: RetryAction.wait (2 ^ attempt) ::
                RetryAction.close :: RetryAction.init ::
                (loginRetryAux results (attempt + 1) (r + 1)).2)) from rfl, hr]
      have harith1 : r + 2 - 1 = (r + 1 - 1) + 1 := by omega
      have harith2 : attempt + 1 + (r + 1) - 1 = attempt + (r + 2) - 1 := by omega
      rw [harith1, List.range'_succ]
      simp [ih, retryBlock, harith2]
    · rw [List.find?_cons, hr] at hf
      simp at hf

/-- Claim C3: the retry wrapper performs at most `maxAttempts` login
attempts, numbered consecutively from 1; it stops immediately at the first
successful attempt; before each retried attempt N it waits exactly
`2 ^ (N - 1)` seconds and then closes and reinitializes the browser session
(the backoff block after attempt `N - 1` is wait, close, init); exhausting
all attempts yields an overall failure, the result being true exactly when
some attempt within the budget succeeded. -/
theorem loginWithRetry_trace (results : Nat → Bool) (maxAttempts : Nat)
    (h : 1 ≤ maxAttempts) :
    (firstSuccess results maxAttempts).getD maxAttempts ≤ maxAttempts ∧
    loginWithRetry results maxAttempts =
      ((firstSuccess results maxAttempts).isSome,
       ((List.range' 1 ((firstSuccess results maxAttempts).getD maxAttempts - 1)).map
           retryBlock).flatten ++
         [RetryAction.attempt ((firstSuccess results maxAttempts).getD maxAttempts)]) := by
  cases hf : firstSuccess results maxAttempts with
  | none =>
    have hf' : (List.range' 1 maxAttempts).find? results = none := hf
    have haux := loginRetryAux_find_none results maxAttempts 1 h hf'
    have harith : 1 + maxAttempts - 1 = maxAttempts := by omega
    rw [harith] at haux
    exact ⟨le_refl _, by simpa [loginWithRetry, hf] using haux⟩
  | some k =>
    have hf' : (List.range' 1 maxAttempts).find? results = some k := hf
    have hk := List.mem_range'_1.mp (List.mem_of_find?_eq_some hf')
    have haux := loginRetryAux_find_some results maxAttempts 1 k hf'
    exact ⟨by simp; omega, by simpa [loginWithRetry, hf] using haux⟩

/-- Witness for C3: with the second attempt succeeding under a budget of 3,
the loop runs attempt 1, waits 2 seconds, closes and reinitializes, runs
attempt 2 and stops successfully. -/
theorem loginWithRetry_trace_witness :
    loginWithRetry (fun k => k == 2) 3 =
      (true, [RetryAction.attempt 1, RetryAction.wait 2, RetryAction.close,
        RetryAction.init, RetryAction.attempt 2]) := by
  have h := loginWithRetry_trace (fun k => k == 2) 3 (by decide)
  exact h.2.trans (by decide)

/-- Counterexample for C7: when all three login attempts fail,
`createLetterboxdSession` throws (models as an error value escaping to its
caller) after exactly 3 browser (re)initializations; no Failure value with
reason login_failed is produced on this path, contrary to the claim that
the terminal value is a returned Failure(login_failed). -/
theorem session_failure_throws_counterexample :
    (createLetterboxdSession (fun _ => false) []).1 =
      Except.error "Failed to login to Letterboxd after multiple attempts" ∧
    (createLetterboxdSession (fun _ => false) []).2.count RetryAction.init = 3 := by
  exact ⟨rfl, by decide⟩

/-- Claim C7 (amended): when every login attempt within the budget of 3
fails, `createLetterboxdSession` throws an error to its caller after
exactly 3 browser (re)initializations; the Failure(login_failed) outcome is
produced as a returned value only inside `logFilmFromPlex`, on the path
where the scraper is not logged in and its cookie restoration fails. -/
theorem session_failure_behavior (loginResults : Nat → Bool) (pageCookies : List Cookie)
    (hFail : ∀ k, 1 ≤ k → k ≤ 3 → loginResults k = false) :
    (createLetterboxdSession loginResults pageCookies).1 =
      Except.error "Failed to login to Letterboxd after multiple attempts" ∧
    (createLetterboxdSession loginResults pageCookies).2.count RetryAction.init = 3 ∧
    (∀ (ev : PlexWebhookEvent) (ws : Option WebhookSettings) (st : ScraperState) (env : Env),
      gateDecide ev.event ev.Metadata.librarySectionType ws = GateCheck.accepted →
      st.isLoggedIn = false → st.cookies = [] →
      (logFilmFromPlex ev ws st env).result =
        ⟨false, some FailReason.login_failed,
          "Not logged in to Letterboxd. Please log in first.", some "Login failed"⟩) := by
  have hf : (List.range' 1 3).find? loginResults = none := by
    rw [List.find?_eq_none]
    intro x hx
    have hb := List.mem_range'_1.mp hx
    simp [hFail x hb.1 (by omega)]
  have haux := loginRetryAux_find_none loginResults 3 1 (by norm_num) hf
  have hcall : createLetterboxdSession loginResults pageCookies =
      (let r := loginRetryAux loginResults 1 3
       if r.1 then
         (Except.ok (loginSuccessState ⟨false, none, [], true⟩ pageCookies),
           RetryAction.init :: r.2)
       else
         (Except.error "Failed to login to Letterboxd after multiple attempts",
           RetryAction.init :: r.2 ++ [RetryAction.close])) := rfl
  have htrace : createLetterboxdSession loginResults pageCookies =
      (Except.error "Failed to login to Letterboxd after multiple attempts",
       RetryAction.init ::
         ((((List.range' 1 2).map retryBlock).flatten ++ [RetryAction.attempt 3]) ++
           [RetryAction.close])) := by
    rw [hcall, haux]
    simp
  refine ⟨by rw [htrace], by rw [htrace]; decide, ?_⟩
  intro ev ws st env hg hL hC
  rw [logFilmFromPlex_accepted ev ws st env hg]
  simp [pipelineCore, ensureLoggedIn, hL, loadCookies, hC]

/-- Witness for C7 (amended): with every attempt failing, the factory
throws its error, and a not-logged-in scraper with no stored cookies makes
the pipeline return the login_failed failure value on a movie scrobble. -/
theorem session_failure_behavior_witness :
    (createLetterboxdSession (fun _ => false)
      [⟨"a", "b", "c", "/", none, none, none, none⟩]).1 =
      Except.error "Failed to login to Letterboxd after multiple attempts" ∧
    (logFilmFromPlex ⟨"media.scrobble", ⟨"movie", "Heat", none, none, none⟩, none⟩ none
        ⟨false, none, [], true⟩ ⟨0, 0, none, Except.error ()⟩).result =
      ⟨false, some FailReason.login_failed,
        "Not logged in to Letterboxd. Please log in first.", some "Login failed"⟩ := by
  have h := session_failure_behavior (fun _ => false)
    [⟨"a", "b", "c", "/", none, none, none, none⟩] (fun _ _ _ => rfl)
  exact ⟨h.1, h.2.2 _ none _ _ (by decide) rfl rfl⟩

/-- Witness for C10: a show scrobble with no settings object is rejected
with reason non_movie. -/
theorem undefined_settings_gate_witness :
    (logFilmFromPlex ⟨"media.scrobble", ⟨"show", "Ep", none, none, none⟩, none⟩ none
        ⟨true, some "tok", [], true⟩ ⟨0, 0, none, Except.error ()⟩).result.reason =
      some FailReason.non_movie := by
  have h := undefined_settings_gate ⟨"media.scrobble", ⟨"show", "Ep", none, none, none⟩, none⟩
    ⟨true, some "tok", [], true⟩ ⟨0, 0, none, Except.error ()⟩
  exact h.2.2.2.2.mpr (by decide)
